import Mathlib

/-!
Verification of the `smart-tts` wrapper (`src/smart-tts/index.js`).

The repository has two units of behaviour:

* `detectLanguage` — a pure classifier from a string to one of five language
  tags, implemented as an ordered chain of character-class presence tests.
  We embed it over `Char` (Unicode scalar values).  The JavaScript regexes
  run over UTF-16 code units, but every tested range lies in the Basic
  Multilingual Plane and no surrogate code unit (0xD800–0xDFFF) falls in any
  tested range, so for every Unicode string the code-unit view and the
  scalar-value view agree.

* `synthesize` — spawns one external process and resolves/rejects from its
  exit code, its accumulated stderr, and an `existsSync` check on the output
  path.  The external process and the filesystem are modelled as an explicit
  `ProcOutcome` (exit code, captured stderr, whether the output file exists
  at completion), and the fresh temp path produced by `randomUUID` is a
  parameter of the environment.

* the CLI dispatch at the bottom of the file, modelled as a function from
  the argument list and the environment to the produced console lines, the
  process exit status and the synthesis request issued (if any).
-/

namespace SmartTTS

/-- The closed enum of language tags returned by `detectLanguage`. -/
inductive Lang where
  | zh
  | en
  | ja
  | yue
  | neutral
deriving DecidableEq, Repr

/-- One character of the Hiragana (U+3040–U+309F) or Katakana
(U+30A0–U+30FF) blocks, the first regex of `detectLanguage`. -/
def isKana (c : Char) : Bool :=
  (0x3040 ≤ c.toNat && c.toNat ≤ 0x309F) || (0x30A0 ≤ c.toNat && c.toNat ≤ 0x30FF)

/-- The literal character class `[係唔佢嘅冇睇咗嚟喺哋俾諗乜嘢咁喎]` of
Cantonese markers, in source order. -/
def cantoneseMarkers : List Char :=
  ['係', '唔', '佢', '嘅', '冇', '睇', '咗', '嚟', '喺', '哋', '俾', '諗', '乜', '嘢', '咁', '喎']

/-- Membership in the Cantonese marker class. -/
def isCantoneseMarker (c : Char) : Bool :=
  cantoneseMarkers.contains c

/-- One CJK Unified Ideograph (U+4E00–U+9FFF), the third regex of
`detectLanguage`. -/
def isHan (c : Char) : Bool :=
  0x4E00 ≤ c.toNat && c.toNat ≤ 0x9FFF

/-- One ASCII Latin letter, the fourth regex of `detectLanguage`. -/
def isLatinLetter (c : Char) : Bool :=
  (0x61 ≤ c.toNat && c.toNat ≤ 0x7A) || (0x41 ≤ c.toNat && c.toNat ≤ 0x5A)

/-- The function `detectLanguage` of `index.js`: an ordered chain of regex
presence tests, first match wins. -/
def detectLanguage (text : String) : Lang :=
  if text.data.any isKana then .ja
  else if text.data.any isCantoneseMarker then .yue
  else if text.data.any isHan then .zh
  else if text.data.any isLatinLetter then .en
  else .neutral

/-- The options object accepted by `synthesize`; `none` is an absent key. -/
structure SynthesisOptions where
  output : Option String := none
  gender : Option String := none
  rate : Option String := none
  pitch : Option String := none
  volume : Option String := none
deriving DecidableEq, Repr

/-- The options after destructuring with defaults. -/
structure ResolvedOptions where
  output : String
  gender : String
  rate : String
  pitch : String
  volume : String
deriving DecidableEq, Repr

/-- The destructuring defaults at the top of `synthesize`:
`output` defaults to the fresh temp path built from `tmpdir()` and
`randomUUID()` (a parameter here), `gender` to `"female"`, `rate` to
`"+0%"`, `pitch` to `"+0Hz"`, `volume` to `"+0%"`. -/
def resolveOptions (freshTmpPath : String) (o : SynthesisOptions) : ResolvedOptions where
  output := o.output.getD freshTmpPath
  gender := o.gender.getD "female"
  rate := o.rate.getD "+0%"
  pitch := o.pitch.getD "+0Hz"
  volume := o.volume.getD "+0%"

/-- The argument vector handed to `spawn('python3', args)`. -/
def buildArgs (pythonScript text : String) (r : ResolvedOptions) : List String :=
  [pythonScript, text,
   "-o", r.output,
   "-g", r.gender,
   "-r", r.rate,
   "-p", r.pitch,
   "-v", r.volume]

/-- What the spawned process did: either the `error` event fired (the
process could not be launched), or the `close` event fired with an exit
code, the accumulated stderr, and whether `existsSync(output)` holds at
that moment. -/
inductive ProcOutcome where
  | errored (message : String)
  | closed (code : Nat) (stderr : String) (outputExists : Bool)
deriving DecidableEq, Repr

/-- The settled promise: resolved with a path or rejected with a message. -/
inductive SynthesisResult where
  | ok (path : String)
  | err (message : String)
deriving DecidableEq, Repr

/-- The rejection message template of the `close` handler. -/
def failureMessage (code : Nat) (stderr : String) : String :=
  "TTS failed (code " ++ toString code ++ "): " ++ stderr

/-- The `close`/`error` handlers of `synthesize`: resolve with the output
path when the exit code is zero and the output file exists, otherwise
reject. -/
def synthesizeStep (output : String) (oc : ProcOutcome) : SynthesisResult :=
  match oc with
  | .errored m => .err m
  | .closed code stderr outputExists =>
      if code == 0 && outputExists then .ok output
      else .err (failureMessage code stderr)

/-- The ambient world of one call: the fresh temp path that `randomUUID`
would produce, and what the spawned process does. -/
structure Env where
  freshTmpPath : String
  outcome : ProcOutcome
deriving DecidableEq, Repr

/-- The whole of `synthesize(text, options)` relative to an environment. -/
def synthesize (env : Env) (text : String) (options : SynthesisOptions) : SynthesisResult :=
  let r := resolveOptions env.freshTmpPath options
  synthesizeStep r.output env.outcome

/-- The fixed bilingual sample string of `--test` mode. -/
def testText : String := "哈囉！這是測試語音。Hello world!"

/-- The two usage lines printed when the CLI receives no arguments. -/
def usageLines : List String :=
  ["Usage: smart-tts \"text to speak\" [-m|--male]",
   "       smart-tts --test"]

/-- JavaScript `s.startsWith(pre)`: the characters of `pre` are an initial
segment of those of `s`. -/
def jsStartsWith (s pre : String) : Bool :=
  pre.data.isPrefixOf s.data

/-- The text of text mode: `args.filter(a => !a.startsWith('-')).join(' ')`. -/
def cliText (args : List String) : String :=
  String.intercalate " " (args.filter fun a => !(jsStartsWith a "-"))

/-- The gender of text mode:
`args.includes('-m') || args.includes('--male') ? 'male' : 'female'`. -/
def cliGender (args : List String) : String :=
  if args.contains "-m" || args.contains "--male" then "male" else "female"

/-- What one CLI invocation produced: the lines written to stdout and to
stderr, the process exit status, and the synthesis request issued
(`none` when no synthesis was attempted). -/
structure CliOutcome where
  stdout : List String
  stderrOut : List String
  exitCode : Nat
  synthRequest : Option (String × SynthesisOptions)
deriving DecidableEq, Repr

/-- The CLI dispatch of `index.js`: `--test` anywhere runs the smoke test
(errors are printed but the exit status stays 0), otherwise a non-empty
argument list is text mode (a failure calls `process.exit(1)`), otherwise
the usage help is printed. -/
def cliRun (args : List String) (env : Env) : CliOutcome :=
  if args.contains "--test" then
    match synthesize env testText {} with
    | .ok p =>
        { stdout := ["Testing Smart TTS...", "Generated: " ++ p],
          stderrOut := [], exitCode := 0, synthRequest := some (testText, {}) }
    | .err m =>
        { stdout := ["Testing Smart TTS..."],
          stderrOut := ["Error: " ++ m], exitCode := 0, synthRequest := some (testText, {}) }
  else if args.length > 0 then
    match synthesize env (cliText args) { gender := some (cliGender args) } with
    | .ok p =>
        { stdout := [p], stderrOut := [], exitCode := 0,
          synthRequest := some (cliText args, { gender := some (cliGender args) }) }
    | .err m =>
        { stdout := [], stderrOut := [m], exitCode := 1,
          synthRequest := some (cliText args, { gender := some (cliGender args) }) }
  else
    { stdout := usageLines, stderrOut := [], exitCode := 0, synthRequest := none }

/-- C2: `detectLanguage` is the ordered first-match-wins classifier: the
result is `ja` iff some character is kana; `yue` iff no kana but some
Cantonese marker; `zh` iff neither but some Han ideograph; `en` iff none of
those but some ASCII Latin letter; `neutral` iff no character of any class
is present — and in particular the empty string yields `neutral`. -/
theorem detectLanguage_first_match_wins (text : String) :
    (detectLanguage text = .ja ↔ text.data.any isKana = true) ∧
    (detectLanguage text = .yue ↔
      text.data.any isKana = false ∧ text.data.any isCantoneseMarker = true) ∧
    (detectLanguage text = .zh ↔
      text.data.any isKana = false ∧ text.data.any isCantoneseMarker = false ∧
      text.data.any isHan = true) ∧
    (detectLanguage text = .en ↔
      text.data.any isKana = false ∧ text.data.any isCantoneseMarker = false ∧
      text.data.any isHan = false ∧ text.data.any isLatinLetter = true) ∧
    (detectLanguage text = .neutral ↔
      text.data.any isKana = false ∧ text.data.any isCantoneseMarker = false ∧
      text.data.any isHan = false ∧ text.data.any isLatinLetter = false) ∧
    detectLanguage "" = .neutral := by
  refine ⟨?_, ?_, ?_, ?_, ?_, by decide⟩ <;>
    · unfold detectLanguage
      cases hk : text.data.any isKana <;>
        cases hc : text.data.any isCantoneseMarker <;>
          cases hh : text.data.any isHan <;>
            cases hl : text.data.any isLatinLetter <;>
              simp [hk, hc, hh, hl]

/-- C3: one kana character anywhere in the text forces the result `ja`,
whatever the rest of the text contains. -/
theorem detectLanguage_kana_forces_ja (text : String)
    (h : text.data.any isKana = true) :
    detectLanguage text = .ja := by
  unfold detectLanguage
  simp [h]

/-- Witness for C3 at a mixed-script input: one hiragana character amid
Latin letters and Han ideographs. -/
theorem detectLanguage_kana_forces_ja_witness :
    "Helloこ世界".data.any isKana = true ∧ detectLanguage "Helloこ世界" = Lang.ja :=
  ⟨by decide, detectLanguage_kana_forces_ja "Helloこ世界" (by decide)⟩

/-- C6: `detectLanguage` is total over the closed five-tag enum: for every
input it returns one of `zh`, `en`, `ja`, `yue`, `neutral`.  Purity,
termination and determinism hold by construction: the embedding is a total
Lean function computed afresh from its argument, with no state. -/
theorem detectLanguage_total_closed_enum (text : String) :
    detectLanguage text = .zh ∨ detectLanguage text = .en ∨
    detectLanguage text = .ja ∨ detectLanguage text = .yue ∨
    detectLanguage text = .neutral := by
  cases h : detectLanguage text <;> simp

/-- C8: the detector only recognises characters inside the four tested
classes; a text all of whose characters avoid every class (for example CJK
Extension A ideographs U+3400–U+4DBF, or halfwidth katakana
U+FF65–U+FF9F) yields `neutral`. -/
theorem detectLanguage_outside_ranges_neutral (text : String)
    (h : ∀ c ∈ text.data, isKana c = false ∧ isCantoneseMarker c = false ∧
      isHan c = false ∧ isLatinLetter c = false) :
    detectLanguage text = .neutral := by
  have hk : text.data.any isKana = false := by
    simp only [List.any_eq_false]
    intro c hc
    simp [(h c hc).1]
  have hc : text.data.any isCantoneseMarker = false := by
    simp only [List.any_eq_false]
    intro c hcm
    simp [(h c hcm).2.1]
  have hh : text.data.any isHan = false := by
    simp only [List.any_eq_false]
    intro c hcm
    simp [(h c hcm).2.2.1]
  have hl : text.data.any isLatinLetter = false := by
    simp only [List.any_eq_false]
    intro c hcm
    simp [(h c hcm).2.2.2]
  unfold detectLanguage
  simp [hk, hc, hh, hl]

/-- Witness for C8 at a string of one CJK Extension A ideograph (U+3400)
and one halfwidth katakana letter (U+FF66). -/
theorem detectLanguage_outside_ranges_neutral_witness :
    detectLanguage "㐀ｦ" = Lang.neutral :=
  detectLanguage_outside_ranges_neutral "㐀ｦ" (by decide)

/-- C1: the promise of `synthesize` resolves exactly when the process
exits with code zero and the resolved output path exists at completion,
and then it resolves with that path; a non-zero exit, a zero exit with the
output file absent, and a launch failure all reject. -/
theorem synthesize_success_iff (env : Env) (text : String) (options : SynthesisOptions) :
    ((∃ p, synthesize env text options = .ok p) ↔
      (∃ stderr, env.outcome =
        .closed 0 stderr true)) ∧
    ((∃ stderr, env.outcome = .closed 0 stderr true) →
      synthesize env text options = .ok (resolveOptions env.freshTmpPath options).output) := by
  obtain ⟨tmp, oc⟩ := env
  rcases oc with m | ⟨code, stderr, outputExists⟩
  · simp [synthesize, synthesizeStep]
  · by_cases h0 : code = 0 <;> by_cases he : outputExists = true <;>
      simp [synthesize, synthesizeStep, h0, he]

/-- Witness for C1: a zero exit with the file present resolves with the
resolved output path; zero exit with the file absent does not resolve. -/
theorem synthesize_success_iff_witness :
    synthesize ⟨"/tmp/a.mp3", .closed 0 "" true⟩ "hi" {} = .ok "/tmp/a.mp3" ∧
    ¬ ∃ p, synthesize ⟨"/tmp/a.mp3", .closed 0 "" false⟩ "hi" {} = .ok p := by
  constructor
  · exact (synthesize_success_iff ⟨"/tmp/a.mp3", .closed 0 "" true⟩ "hi" {}).2 ⟨"", rfl⟩
  · intro hex
    have h := (synthesize_success_iff ⟨"/tmp/a.mp3", .closed 0 "" false⟩ "hi" {}).1.mp hex
    rcases h with ⟨s, hs⟩
    simp at hs

/-- C4: when the process exited and the call fails, the rejection message
is the template carrying the exit code and the whole captured stderr; in
particular the stderr text and the printed exit code are substrings of the
message. -/
theorem synthesize_failure_carries_diagnostics (output stderr : String) (code : Nat)
    (outputExists : Bool) (h : ¬ (code = 0 ∧ outputExists = true)) :
    synthesizeStep output (.closed code stderr outputExists) =
      .err (failureMessage code stderr) ∧
    (∃ pre, failureMessage code stderr = pre ++ stderr) ∧
    (∃ pre post, failureMessage code stderr = pre ++ toString code ++ post) := by
  refine ⟨?_, ⟨"TTS failed (code " ++ toString code ++ "): ", rfl⟩,
    ⟨"TTS failed (code ", "): " ++ stderr, ?_⟩⟩
  · by_cases h0 : code = 0
    · by_cases he : outputExists = true
      · exact absurd ⟨h0, he⟩ h
      · simp [synthesizeStep, h0, he]
    · simp [synthesizeStep, h0]
  · simp [failureMessage, String.append_assoc]

/-- Witness for C4: exit code 1 with stderr "voice not found" rejects with
that text in the message. -/
theorem synthesize_failure_carries_diagnostics_witness :
    synthesizeStep "/tmp/a.mp3" (.closed 1 "voice not found" false) =
      .err "TTS failed (code 1): voice not found" := by
  have h := synthesize_failure_carries_diagnostics "/tmp/a.mp3" "voice not found" 1 false
    (by decide)
  rw [h.1]
  rfl

/-- C5: every omitted option key takes its documented default — `gender`
`"female"`, `rate` `"+0%"`, `pitch` `"+0Hz"`, `volume` `"+0%"`, `output`
the fresh temp path — and every supplied key overrides its default
individually. -/
theorem synthesize_option_defaults (freshTmpPath : String) (o : SynthesisOptions) :
    (o.output = none → (resolveOptions freshTmpPath o).output = freshTmpPath) ∧
    (o.gender = none → (resolveOptions freshTmpPath o).gender = "female") ∧
    (o.rate = none → (resolveOptions freshTmpPath o).rate = "+0%") ∧
    (o.pitch = none → (resolveOptions freshTmpPath o).pitch = "+0Hz") ∧
    (o.volume = none → (resolveOptions freshTmpPath o).volume = "+0%") ∧
    (∀ v, o.output = some v → (resolveOptions freshTmpPath o).output = v) ∧
    (∀ v, o.gender = some v → (resolveOptions freshTmpPath o).gender = v) ∧
    (∀ v, o.rate = some v → (resolveOptions freshTmpPath o).rate = v) ∧
    (∀ v, o.pitch = some v → (resolveOptions freshTmpPath o).pitch = v) ∧
    (∀ v, o.volume = some v → (resolveOptions freshTmpPath o).volume = v) := by
  refine ⟨fun h => ?_, fun h => ?_, fun h => ?_, fun h => ?_, fun h => ?_,
    fun v h => ?_, fun v h => ?_, fun v h => ?_, fun v h => ?_, fun v h => ?_⟩ <;>
    simp [resolveOptions, h]

/-- Witness for C5: with only `gender` supplied, `gender` is overridden
while `rate` and `output` keep their defaults. -/
theorem synthesize_option_defaults_witness :
    (resolveOptions "/tmp/fresh.mp3" { gender := some "male" }).gender = "male" ∧
    (resolveOptions "/tmp/fresh.mp3" { gender := some "male" }).rate = "+0%" ∧
    (resolveOptions "/tmp/fresh.mp3" { gender := some "male" }).output = "/tmp/fresh.mp3" := by
  have h := synthesize_option_defaults "/tmp/fresh.mp3" { gender := some "male" }
  exact ⟨h.2.2.2.2.2.2.1 "male" rfl, h.2.2.1 rfl, h.1 rfl⟩

/-- C7: the CLI with no arguments prints the two usage lines, attempts no
synthesis, and exits with status zero. -/
theorem cli_no_args_prints_usage (env : Env) :
    cliRun [] env =
      { stdout := usageLines, stderrOut := [], exitCode := 0, synthRequest := none } := by
  rfl

/-- C9: in text mode (a non-empty argument list containing no `--test`),
the text handed to `synthesize` is the space-join of exactly the arguments
that do not start with `-`; every `-`-leading argument is dropped from the
text, and the only option passed is the gender derived from `-m`/`--male`. -/
theorem cli_text_mode_joins_non_flag_args (args : List String) (env : Env)
    (hT : args.contains "--test" = false) (hNe : args ≠ []) :
    (cliRun args env).synthRequest =
      some (String.intercalate " " (args.filter fun a => !(jsStartsWith a "-")),
        { gender := some (if args.contains "-m" || args.contains "--male"
            then "male" else "female") }) := by
  have hLen : args.length > 0 := List.length_pos.mpr hNe
  have hb : ¬ (args.contains "--test" = true) := by rw [hT]; simp
  show (cliRun args env).synthRequest = some (cliText args, { gender := some (cliGender args) })
  unfold cliRun
  rw [if_neg hb, if_pos hLen]
  cases hs : synthesize env (cliText args) { gender := some (cliGender args) } <;> rfl

/-- Witness for C9: `["hello", "-x", "world"]` synthesizes the text
`"hello world"` — the unrecognised flag `-x` is silently dropped. -/
theorem cli_text_mode_joins_non_flag_args_witness :
    (cliRun ["hello", "-x", "world"] ⟨"/tmp/a.mp3", .closed 0 "" true⟩).synthRequest =
      some ("hello world", { gender := some "female" }) := by
  have h := cli_text_mode_joins_non_flag_args ["hello", "-x", "world"]
    ⟨"/tmp/a.mp3", .closed 0 "" true⟩ (by decide) (by decide)
  rw [h]
  decide

/-- C10: a synthesis failure under `--test` prints the error message but
leaves the exit status zero, whereas the same failure in plain text mode
exits with status 1. -/
theorem cli_test_mode_failure_exits_zero (args : List String) (env : Env) (m : String)
    (hT : args.contains "--test" = true)
    (hFail : synthesize env testText {} = .err m) :
    (cliRun args env).exitCode = 0 ∧
    (cliRun args env).stderrOut = ["Error: " ++ m] ∧
    (∀ args2 : List String, ∀ env2 : Env, ∀ m2 : String,
      args2.contains "--test" = false → args2 ≠ [] →
      synthesize env2 (cliText args2) { gender := some (cliGender args2) } = .err m2 →
      (cliRun args2 env2).exitCode = 1) := by
  refine ⟨?_, ?_, ?_⟩
  · unfold cliRun
    rw [if_pos hT, hFail]
  · unfold cliRun
    rw [if_pos hT, hFail]
  · intro args2 env2 m2 hT2 hNe2 hFail2
    have hLen : args2.length > 0 := List.length_pos.mpr hNe2
    have hb : ¬ (args2.contains "--test" = true) := by rw [hT2]; simp
    unfold cliRun
    rw [if_neg hb, if_pos hLen, hFail2]

/-- Witness for C10: against a backend exiting 1, `--test` keeps exit
status 0 while text mode exits 1. -/
theorem cli_test_mode_failure_exits_zero_witness :
    (cliRun ["--test"] ⟨"/tmp/a.mp3", .closed 1 "boom" false⟩).exitCode = 0 ∧
    (cliRun ["hi"] ⟨"/tmp/a.mp3", .closed 1 "boom" false⟩).exitCode = 1 := by
  have h := cli_test_mode_failure_exits_zero ["--test"] ⟨"/tmp/a.mp3", .closed 1 "boom" false⟩
    "TTS failed (code 1): boom" (by decide) (by decide)
  exact ⟨h.1, h.2.2 ["hi"] ⟨"/tmp/a.mp3", .closed 1 "boom" false⟩
    "TTS failed (code 1): boom" (by decide) (by decide) (by decide)⟩

end SmartTTS
